import Mathlib

/-!
Verification of the grid-template designer (GridOverlay) of unity-backend.

The definitions below are a shallow embedding of the JavaScript class
`GridOverlay` (grid drawing, boundary dragging, template definition and
replication, export to PDF coordinates) together with the template-apply
handler of the application module.  Coordinates are modelled as rationals;
machine floats in the source carry exact decimal values in all the
scenarios considered here.
-/

namespace VoterGrid

/-- Rectangle value `{x, y, width, height}` as used throughout the source. -/
@[ext] structure Rect where
  x : ℚ
  y : ℚ
  width : ℚ
  height : ℚ
  deriving DecidableEq

/-- The grid object `this.grid = {rows, columns, x, y, width, height}`. -/
@[ext] structure Grid where
  rows : ℕ
  columns : ℕ
  x : ℚ
  y : ℚ
  width : ℚ
  height : ℚ
  deriving DecidableEq

/-- The values taken by `this.templateType` in the source. -/
inductive TemplateType where
  | voterID | photo | name | relativeName | houseNumber | gender | age
  | assemblyNumber | serialNumber | boothCenter | boothAddress
  deriving DecidableEq

/-- Corner names used by `this.resizeHandle`. -/
inductive ResizeHandle where
  | topLeft | topRight | bottomLeft | bottomRight
  deriving DecidableEq

/-- Line kind of `this.draggedLine.type` (`'row'` or `'col'`). -/
inductive LineKind where
  | row | col
  deriving DecidableEq

/-- The object `this.draggedLine = {type, index}`. -/
structure DraggedLine where
  kind : LineKind
  index : ℕ
  deriving DecidableEq

/-- Full mutable state of a `GridOverlay` instance (the fields relevant to
geometry and interaction; canvas/context handles are omitted). -/
structure OverlayState where
  grid : Option Grid
  customRowPositions : List ℚ
  customColPositions : List ℚ
  templateMode : Bool
  headerTemplateMode : Bool
  templateType : Option TemplateType
  voterIdBox : Option Rect
  photoBox : Option Rect
  nameBox : Option Rect
  relativeNameBox : Option Rect
  houseNumberBox : Option Rect
  genderBox : Option Rect
  ageBox : Option Rect
  assemblyNumberBox : Option Rect
  serialNumberBox : Option Rect
  boothCenterBox : Option Rect
  boothAddressBox : Option Rect
  headerTemplateApplied : Bool
  gridResizeDisabled : Bool
  isDrawing : Bool
  isDragging : Bool
  isResizing : Bool
  isDraggingLine : Bool
  resizeHandle : Option ResizeHandle
  draggedLine : Option DraggedLine
  dragStartX : ℚ
  dragStartY : ℚ
  gridStartX : ℚ
  gridStartY : ℚ
  gridStartWidth : ℚ
  gridStartHeight : ℚ
  drawStart : Option (ℚ × ℚ)
  currentRect : Option Rect
  pdfScale : ℚ
  deriving DecidableEq

/-- State produced by the constructor (canvas-independent fields).  The
default PDF scale in the source is `1.5`. -/
def initialState : OverlayState where
  grid := none
  customRowPositions := []
  customColPositions := []
  templateMode := false
  headerTemplateMode := false
  templateType := none
  voterIdBox := none
  photoBox := none
  nameBox := none
  relativeNameBox := none
  houseNumberBox := none
  genderBox := none
  ageBox := none
  assemblyNumberBox := none
  serialNumberBox := none
  boothCenterBox := none
  boothAddressBox := none
  headerTemplateApplied := false
  gridResizeDisabled := false
  isDrawing := false
  isDragging := false
  isResizing := false
  isDraggingLine := false
  resizeHandle := none
  draggedLine := none
  dragStartX := 0
  dragStartY := 0
  gridStartX := 0
  gridStartY := 0
  gridStartWidth := 0
  gridStartHeight := 0
  drawStart := none
  currentRect := none
  pdfScale := 3/2

/-- Column edge positions `[grid.x, ...customColPositions, grid.x + grid.width]`
as built in `getGridConfig`, `drawCellNumbers`, `drawTemplateOnAllCells` and
`getFirstCell`. -/
def colPositions (g : Grid) (ccols : List ℚ) : List ℚ :=
  g.x :: (ccols ++ [g.x + g.width])

/-- Row edge positions `[grid.y, ...customRowPositions, grid.y + grid.height]`. -/
def rowPositions (g : Grid) (crows : List ℚ) : List ℚ :=
  g.y :: (crows ++ [g.y + g.height])

/-- The reference cell, `getFirstCell`: spans the first two column and the
first two row edge positions. -/
def getFirstCell (g : Grid) (ccols crows : List ℚ) : Rect where
  x := (colPositions g ccols).getD 0 0
  y := (rowPositions g crows).getD 0 0
  width := (colPositions g ccols).getD 1 0 - (colPositions g ccols).getD 0 0
  height := (rowPositions g crows).getD 1 0 - (rowPositions g crows).getD 0 0

/-- Rectangle of cell `(row, col)` as derived inside the loop of
`drawTemplateOnAllCells`: `cellX = colPositions[col]`,
`cellWidth = colPositions[col+1] - colPositions[col]`, and likewise for rows. -/
def cellRect (g : Grid) (ccols crows : List ℚ) (row col : ℕ) : Rect where
  x := (colPositions g ccols).getD col 0
  y := (rowPositions g crows).getD row 0
  width := (colPositions g ccols).getD (col + 1) 0 - (colPositions g ccols).getD col 0
  height := (rowPositions g crows).getD (row + 1) 0 - (rowPositions g crows).getD row 0

/-- Replication of one stored template box onto cell `(row, col)`, from
`drawTemplateOnAllCells`: `scaleX = cellWidth / getFirstCell().width`,
`scaledX = cellX + box.x * scaleX`, and similarly for the y axis. -/
def replicateBox (g : Grid) (ccols crows : List ℚ) (row col : ℕ) (box : Rect) : Rect :=
  let cell := cellRect g ccols crows row col
  let first := getFirstCell g ccols crows
  let scaleX := cell.width / first.width
  let scaleY := cell.height / first.height
  { x := cell.x + box.x * scaleX
    y := cell.y + box.y * scaleY
    width := box.width * scaleX
    height := box.height * scaleY }

/-- Uniform boundary positions computed by `initializeCustomPositions`:
column positions `grid.x + i * (grid.width / grid.columns)` for
`i = 1 .. columns - 1`, and the analogous row positions. -/
def initCustomPositions (g : Grid) : List ℚ × List ℚ :=
  let cellWidth := g.width / (g.columns : ℚ)
  let cellHeight := g.height / (g.rows : ℚ)
  ((List.range (g.columns - 1)).map (fun i : ℕ => g.x + ((i : ℚ) + 1) * cellWidth),
   (List.range (g.rows - 1)).map (fun i : ℕ => g.y + ((i : ℚ) + 1) * cellHeight))

/-- JavaScript `Math.round` (round half toward positive infinity). -/
def jsRound (q : ℚ) : ℚ := (⌊q + 1/2⌋ : ℤ)

/-- The `drawGrid` operation: auto-computes the rectangle from the canvas
dimensions when not supplied (5% left margin, 10% top margin, 90% width,
82% height), stores the grid and initializes uniform boundary positions. -/
def drawGrid (s : OverlayState) (canvasW canvasH : ℚ) (rows columns : ℕ)
    (xArg yArg wArg hArg : Option ℚ) : OverlayState :=
  let x := xArg.getD (jsRound (canvasW * (5/100)))
  let y := yArg.getD (jsRound (canvasH * (10/100)))
  let w := wArg.getD (jsRound (canvasW * (90/100)))
  let h := hArg.getD (jsRound (canvasH * (82/100)))
  let g : Grid := { rows := rows, columns := columns, x := x, y := y, width := w, height := h }
  let pos := initCustomPositions g
  { s with grid := some g, customColPositions := pos.1, customRowPositions := pos.2 }

/-- Hit test `getResizeHandle`: the corners are tried in the insertion order
topLeft, topRight, bottomLeft, bottomRight, with a 20-unit clickable area. -/
def getResizeHandle (g : Grid) (x y : ℚ) : Option ResizeHandle :=
  if |x - g.x| ≤ 20 ∧ |y - g.y| ≤ 20 then some .topLeft
  else if |x - (g.x + g.width)| ≤ 20 ∧ |y - g.y| ≤ 20 then some .topRight
  else if |x - g.x| ≤ 20 ∧ |y - (g.y + g.height)| ≤ 20 then some .bottomLeft
  else if |x - (g.x + g.width)| ≤ 20 ∧ |y - (g.y + g.height)| ≤ 20 then some .bottomRight
  else none

/-- Hit test `getGridLineAtPoint`: vertical (column) lines are checked first,
then horizontal (row) lines, with an 8-unit threshold. -/
def getGridLineAtPoint (g : Grid) (ccols crows : List ℚ) (x y : ℚ) : Option DraggedLine :=
  match ccols.findIdx? (fun lineX =>
      decide (|x - lineX| ≤ 8 ∧ g.y ≤ y ∧ y ≤ g.y + g.height)) with
  | some i => some ⟨.col, i⟩
  | none =>
    match crows.findIdx? (fun lineY =>
        decide (|y - lineY| ≤ 8 ∧ g.x ≤ x ∧ x ≤ g.x + g.width)) with
    | some i => some ⟨.row, i⟩
    | none => none

/-- Containment test `isPointInGrid`. -/
def isPointInGrid (g : Grid) (x y : ℚ) : Bool :=
  decide (g.x ≤ x ∧ x ≤ g.x + g.width ∧ g.y ≤ y ∧ y ≤ g.y + g.height)

/-- The `handleMouseDown` event handler at canvas point `(x, y)`
(cursor changes and toast notifications are not modelled). -/
def handleMouseDown (s : OverlayState) (x y : ℚ) : OverlayState :=
  if s.headerTemplateMode then
    match s.templateType with
    | some .boothCenter => { s with isDrawing := true, drawStart := some (x, y) }
    | some .boothAddress => { s with isDrawing := true, drawStart := some (x, y) }
    | _ => s
  else if s.templateMode && s.grid.isSome then
    { s with isDrawing := true, drawStart := some (x, y) }
  else if s.grid.isSome && !s.templateMode && !s.headerTemplateMode && !s.gridResizeDisabled then
    match s.grid with
    | none => s
    | some g =>
      match getResizeHandle g x y with
      | some h =>
        { s with isResizing := true, resizeHandle := some h,
                 dragStartX := x, dragStartY := y,
                 gridStartX := g.x, gridStartY := g.y,
                 gridStartWidth := g.width, gridStartHeight := g.height }
      | none =>
        match getGridLineAtPoint g s.customColPositions s.customRowPositions x y with
        | some line =>
          { s with isDraggingLine := true, draggedLine := some line,
                   dragStartX := x, dragStartY := y }
        | none =>
          if isPointInGrid g x y then
            { s with isDragging := true, dragStartX := x - g.x, dragStartY := y - g.y }
          else s
  else s

/-- The `handleMouseMove` event handler at canvas point `(x, y)`.  The four
mutation branches (rubber-band drawing, single-line dragging, corner
resizing with the 100-unit floor and a reset of the custom positions, and
whole-grid dragging) follow the source in order; the cursor-only branches
leave the state unchanged. -/
def handleMouseMove (s : OverlayState) (x y : ℚ) : OverlayState :=
  if s.isDrawing && s.drawStart.isSome then
    match s.drawStart with
    | some p =>
      { s with currentRect := some ⟨min p.1 x, min p.2 y, |x - p.1|, |y - p.2|⟩ }
    | none => s
  else if s.isDraggingLine && s.draggedLine.isSome then
    match s.draggedLine, s.grid with
    | some line, some g =>
      match line.kind with
      | .row =>
        if g.y < y ∧ y < g.y + g.height then
          { s with customRowPositions := s.customRowPositions.set line.index y }
        else s
      | .col =>
        if g.x < x ∧ x < g.x + g.width then
          { s with customColPositions := s.customColPositions.set line.index x }
        else s
    | _, _ => s
  else if s.isResizing && s.grid.isSome then
    match s.grid with
    | none => s
    | some g =>
      let dX := x - s.dragStartX
      let dY := y - s.dragStartY
      let g1 : Grid :=
        match s.resizeHandle with
        | some .topLeft =>
          { g with x := s.gridStartX + dX, y := s.gridStartY + dY,
                   width := s.gridStartWidth - dX, height := s.gridStartHeight - dY }
        | some .topRight =>
          { g with y := s.gridStartY + dY,
                   width := s.gridStartWidth + dX, height := s.gridStartHeight - dY }
        | some .bottomLeft =>
          { g with x := s.gridStartX + dX,
                   width := s.gridStartWidth - dX, height := s.gridStartHeight + dY }
        | some .bottomRight =>
          { g with width := s.gridStartWidth + dX, height := s.gridStartHeight + dY }
        | none => g
      let g2 : Grid :=
        { g1 with width := if g1.width < 100 then 100 else g1.width,
                  height := if g1.height < 100 then 100 else g1.height }
      let pos := initCustomPositions g2
      { s with grid := some g2, customColPositions := pos.1, customRowPositions := pos.2 }
  else if s.isDragging && s.grid.isSome then
    match s.grid with
    | none => s
    | some g =>
      { s with grid := some { g with x := x - s.dragStartX, y := y - s.dragStartY } }
  else s

/-- Store a finished rubber-band rectangle into the template slot selected by
`templateType`, as in the commit section of `handleMouseUp`.  In cell
template mode the box is first translated to reference-cell-relative
coordinates. -/
def commitRect (s : OverlayState) (box : Rect) : OverlayState :=
  if s.headerTemplateMode then
    match s.templateType with
    | some .boothCenter => { s with boothCenterBox := some box }
    | some .boothAddress => { s with boothAddressBox := some box }
    | _ => s
  else if s.templateMode then
    match s.grid with
    | none => s
    | some g =>
      let firstCell := getFirstCell g s.customColPositions s.customRowPositions
      let rel : Rect := { box with x := box.x - firstCell.x, y := box.y - firstCell.y }
      match s.templateType with
      | some .voterID => { s with voterIdBox := some rel }
      | some .photo => { s with photoBox := some rel }
      | some .name => { s with nameBox := some rel }
      | some .relativeName => { s with relativeNameBox := some rel }
      | some .houseNumber => { s with houseNumberBox := some rel }
      | some .gender => { s with genderBox := some rel }
      | some .age => { s with ageBox := some rel }
      | some .assemblyNumber => { s with assemblyNumberBox := some rel }
      | some .serialNumber => { s with serialNumberBox := some rel }
      | _ => s
  else s

/-- The `handleMouseUp` event handler: commits the current rectangle when a
draw was in progress, then clears all transient drag/draw flags. -/
def handleMouseUp (s : OverlayState) : OverlayState :=
  let s1 :=
    if s.isDrawing && s.currentRect.isSome then
      match s.currentRect with
      | some box => { commitRect s box with currentRect := none }
      | none => s
    else s
  { s1 with isDrawing := false, isDragging := false, isResizing := false,
            isDraggingLine := false, resizeHandle := none, draggedLine := none }

/-- Keyboard keys distinguished by `handleKeyDown`.  `plusKey` stands for
`'+'`/`'='` and `minusKey` for `'-'`/`'_'`; `keyV`/`keyI` are the legacy
field-selection letters. -/
inductive Key where
  | f2 | f3
  | digit1 | digit2 | digit3 | digit4 | digit5 | digit6 | digit7 | digit8 | digit9
  | keyV | keyI
  | arrowUp | arrowDown | arrowLeft | arrowRight
  | plusKey | minusKey
  | other
  deriving DecidableEq

/-- Keyboard event: key identity plus the Ctrl/Meta and Shift modifiers. -/
structure KeyEvent where
  key : Key
  ctrlKey : Bool
  shiftKey : Bool
  deriving DecidableEq

/-- The `handleKeyDown` event handler.  In header template mode Ctrl+F2/F3
select a header field; in cell template mode Ctrl+1..9 (or the legacy V/I
letters) select a cell field; otherwise, when a grid exists, arrow keys move
the grid by 1 unit (10 with Shift) and `+`/`-` grow or shrink it by twice
the step.  The grid-adjustment branch tests `grid`, `templateMode` and
`headerTemplateMode` but not `gridResizeDisabled`. -/
def handleKeyDown (s : OverlayState) (ev : KeyEvent) : OverlayState :=
  if s.headerTemplateMode then
    if ev.ctrlKey then
      match ev.key with
      | .f2 => { s with templateType := some .boothCenter }
      | .f3 => { s with templateType := some .boothAddress }
      | _ => s
    else s
  else if s.templateMode then
    if ev.ctrlKey then
      match ev.key with
      | .digit1 => { s with templateType := some .voterID }
      | .digit2 => { s with templateType := some .name }
      | .digit3 => { s with templateType := some .relativeName }
      | .digit4 => { s with templateType := some .houseNumber }
      | .digit5 => { s with templateType := some .gender }
      | .digit6 => { s with templateType := some .age }
      | .digit7 => { s with templateType := some .assemblyNumber }
      | .digit8 => { s with templateType := some .photo }
      | .digit9 => { s with templateType := some .serialNumber }
      | _ => s
    else
      match ev.key with
      | .keyV => { s with templateType := some .voterID }
      | .keyI => { s with templateType := some .photo }
      | _ => s
  else
    match s.grid with
    | none => s
    | some g =>
      let step : ℚ := if ev.shiftKey then 10 else 1
      match ev.key with
      | .arrowUp => { s with grid := some { g with y := g.y - step } }
      | .arrowDown => { s with grid := some { g with y := g.y + step } }
      | .arrowLeft => { s with grid := some { g with x := g.x - step } }
      | .arrowRight => { s with grid := some { g with x := g.x + step } }
      | .plusKey => { s with grid := some { g with width := g.width + step * 2, height := g.height + step * 2 } }
      | .minusKey => { s with grid := some { g with width := g.width - step * 2, height := g.height - step * 2 } }
      | _ => s

/-- The `enableTemplateMode` command: fails (returning `false`, state
unchanged) when no grid exists; otherwise activates cell template mode and
preselects the voter-ID field. -/
def enableTemplateMode (s : OverlayState) : Bool × OverlayState :=
  match s.grid with
  | none => (false, s)
  | some _ => (true, { s with templateMode := true, templateType := some .voterID })

/-- The `disableTemplateMode` command. -/
def disableTemplateMode (s : OverlayState) : OverlayState :=
  { s with templateMode := false, templateType := none }

/-- The `enableHeaderTemplateMode` command: requires no grid, always
succeeds, preselects the booth-center field. -/
def enableHeaderTemplateMode (s : OverlayState) : Bool × OverlayState :=
  (true, { s with headerTemplateMode := true, templateType := some .boothCenter })

/-- The `disableHeaderTemplateMode` command. -/
def disableHeaderTemplateMode (s : OverlayState) : OverlayState :=
  { s with headerTemplateMode := false, templateType := none }

/-- Completeness test `isTemplateComplete`: the voter-ID box is required. -/
def isTemplateComplete (s : OverlayState) : Bool := s.voterIdBox.isSome

/-- Completeness test `isHeaderTemplateComplete`: at least one header box. -/
def isHeaderTemplateComplete (s : OverlayState) : Bool :=
  s.boothCenterBox.isSome || s.boothAddressBox.isSome

/-- The `handleApplyTemplate` handler of the application module: requires a
complete cell template, then leaves template mode and sets
`gridResizeDisabled` (UI-element updates are not modelled). -/
def handleApplyTemplate (s : OverlayState) : OverlayState :=
  if isTemplateComplete s then
    { disableTemplateMode s with gridResizeDisabled := true }
  else s

/-- The `clearGrid` command: discards the grid, every template box, both
modes and the resize-disabled flag. -/
def clearGrid (s : OverlayState) : OverlayState :=
  { s with grid := none, voterIdBox := none, photoBox := none, nameBox := none,
           relativeNameBox := none, houseNumberBox := none, genderBox := none,
           ageBox := none, assemblyNumberBox := none, serialNumberBox := none,
           boothCenterBox := none, boothAddressBox := none,
           templateMode := false, headerTemplateMode := false,
           headerTemplateApplied := false, gridResizeDisabled := false,
           customRowPositions := [], customColPositions := [] }

/-- Payload of `getGridConfig`, after conversion to PDF coordinates. -/
structure GridConfig where
  rows : ℕ
  columns : ℕ
  x : ℚ
  y : ℚ
  width : ℚ
  height : ℚ
  customColPositions : List ℚ
  customRowPositions : List ℚ
  colPositions : List ℚ
  rowPositions : List ℚ
  deriving DecidableEq

/-- The `getGridConfig` export: `null` without a grid, otherwise every
stored coordinate divided by `pdfScale`. -/
def getGridConfig (s : OverlayState) : Option GridConfig :=
  match s.grid with
  | none => none
  | some g =>
    some { rows := g.rows
           columns := g.columns
           x := g.x / s.pdfScale
           y := g.y / s.pdfScale
           width := g.width / s.pdfScale
           height := g.height / s.pdfScale
           customColPositions := s.customColPositions.map (fun p => p / s.pdfScale)
           customRowPositions := s.customRowPositions.map (fun p => p / s.pdfScale)
           colPositions := (colPositions g s.customColPositions).map (fun p => p / s.pdfScale)
           rowPositions := (rowPositions g s.customRowPositions).map (fun p => p / s.pdfScale) }

/-- Cell-template part of the `getCellTemplate` payload (absent boxes are
`none`; the source deletes the corresponding keys). -/
structure CellTemplate where
  voterIdBox : Option Rect
  photoBox : Option Rect
  nameBox : Option Rect
  relativeNameBox : Option Rect
  houseNumberBox : Option Rect
  genderBox : Option Rect
  ageBox : Option Rect
  assemblyNumberBox : Option Rect
  serialNumberBox : Option Rect
  deriving DecidableEq

/-- Header-template part of the `getCellTemplate` payload. -/
structure HeaderTemplate where
  boothCenterBox : Option Rect
  boothAddressBox : Option Rect
  deriving DecidableEq

/-- Box conversion `convertBox` of `getCellTemplate`: divides each
coordinate by the scale. -/
def convertBox (scale : ℚ) : Option Rect → Option Rect
  | none => none
  | some b => some ⟨b.x / scale, b.y / scale, b.width / scale, b.height / scale⟩

/-- The `getCellTemplate` export: `null` unless the voter-ID box or a header
box is defined; otherwise every defined box divided by `pdfScale`. -/
def getCellTemplate (s : OverlayState) : Option (CellTemplate × HeaderTemplate) :=
  let hasCellTemplate := s.voterIdBox.isSome
  let hasHeaderTemplate := s.boothCenterBox.isSome || s.boothAddressBox.isSome
  if !hasCellTemplate && !hasHeaderTemplate then none
  else
    let sc := s.pdfScale
    some ({ voterIdBox := convertBox sc s.voterIdBox
            photoBox := convertBox sc s.photoBox
            nameBox := convertBox sc s.nameBox
            relativeNameBox := convertBox sc s.relativeNameBox
            houseNumberBox := convertBox sc s.houseNumberBox
            genderBox := convertBox sc s.genderBox
            ageBox := convertBox sc s.ageBox
            assemblyNumberBox := convertBox sc s.assemblyNumberBox
            serialNumberBox := convertBox sc s.serialNumberBox },
          { boothCenterBox := convertBox sc s.boothCenterBox
            boothAddressBox := convertBox sc s.boothAddressBox })

/-- Evaluation helper: `getD` of a mapped `List.range` at an in-bounds index. -/
lemma getD_map_range (n : ℕ) (f : ℕ → ℚ) (i : ℕ) (hi : i < n) :
    ((List.range n).map f).getD i 0 = f i := by
  rw [List.getD_eq_getElem?_getD, List.getElem?_map, List.getElem?_range hi]
  rfl

/-- Grid used for the uniform-replication witness: 2×2 over (0,0,200,200). -/
def uniformGrid : Grid := { rows := 2, columns := 2, x := 0, y := 0, width := 200, height := 200 }

/-- C1: when every cell of the grid has the same width and height as the
reference cell (cell 0,0) — which must be non-degenerate, as in any grid
the overlay can store — replication onto any target cell is the stored
region offset by that cell's top-left corner: the target region equals the
stored region in cell-local coordinates. -/
theorem replication_identity_on_uniform_cells
    (g : Grid) (ccols crows : List ℚ) (box : Rect) (row col : ℕ)
    (hW : (getFirstCell g ccols crows).width ≠ 0)
    (hH : (getFirstCell g ccols crows).height ≠ 0)
    (huniform : ∀ r c, r < g.rows → c < g.columns →
      (cellRect g ccols crows r c).width = (getFirstCell g ccols crows).width ∧
      (cellRect g ccols crows r c).height = (getFirstCell g ccols crows).height)
    (hr : row < g.rows) (hc : col < g.columns) :
    replicateBox g ccols crows row col box =
      { x := (cellRect g ccols crows row col).x + box.x
        y := (cellRect g ccols crows row col).y + box.y
        width := box.width
        height := box.height } := by
  obtain ⟨hw, hh⟩ := huniform row col hr hc
  simp only [replicateBox, hw, hh, div_self hW, div_self hH, mul_one]

/-- Witness for `replication_identity_on_uniform_cells` on a concrete
2×2 uniform grid and the stored region (5,5,50,20) placed on cell (1,1). -/
theorem replication_identity_witness :
    replicateBox uniformGrid [100] [100] 1 1 ⟨5, 5, 50, 20⟩ =
      { x := (cellRect uniformGrid [100] [100] 1 1).x + (5 : ℚ)
        y := (cellRect uniformGrid [100] [100] 1 1).y + (5 : ℚ)
        width := (50 : ℚ)
        height := (20 : ℚ) } := by
  refine replication_identity_on_uniform_cells uniformGrid [100] [100] ⟨5, 5, 50, 20⟩ 1 1
    ?_ ?_ ?_ ?_ ?_
  · norm_num [getFirstCell, colPositions, uniformGrid]
  · norm_num [getFirstCell, rowPositions, uniformGrid]
  · intro r c hr hc
    have hr2 : r < 2 := hr
    have hc2 : c < 2 := hc
    interval_cases r <;> interval_cases c <;>
      constructor <;>
        norm_num [cellRect, getFirstCell, colPositions, rowPositions, uniformGrid, List.getD]
  · norm_num [uniformGrid]
  · norm_num [uniformGrid]

/-- Grid used for the per-axis scaling scenario: one row, two columns over
(0,0,250,100); the reference cell is 100×100 and cell (0,1) is 150×100. -/
def axisGrid : Grid := { rows := 1, columns := 2, x := 0, y := 0, width := 250, height := 100 }

/-- C2: with a 100×100 reference cell holding stored region (5,5,50,20), the
replicated region on a 150×100 target cell is (7.5,5,75,20) in that cell's
local coordinates: x and width scale by 3/2 while y and height are
unchanged. -/
theorem replication_per_axis_scaling :
    (getFirstCell axisGrid [100] []).width = 100 ∧
    (getFirstCell axisGrid [100] []).height = 100 ∧
    (cellRect axisGrid [100] [] 0 1).width = 150 ∧
    (cellRect axisGrid [100] [] 0 1).height = 100 ∧
    (replicateBox axisGrid [100] [] 0 1 ⟨5, 5, 50, 20⟩).x
        - (cellRect axisGrid [100] [] 0 1).x = 15/2 ∧
    (replicateBox axisGrid [100] [] 0 1 ⟨5, 5, 50, 20⟩).y
        - (cellRect axisGrid [100] [] 0 1).y = 5 ∧
    (replicateBox axisGrid [100] [] 0 1 ⟨5, 5, 50, 20⟩).width = 75 ∧
    (replicateBox axisGrid [100] [] 0 1 ⟨5, 5, 50, 20⟩).height = 20 := by
  refine ⟨?_, ?_, ?_, ?_, ?_, ?_, ?_, ?_⟩ <;>
    norm_num [replicateBox, cellRect, getFirstCell, colPositions, rowPositions, axisGrid,
      List.getD]

/-- Grid of the 3×3 uniform-layout scenario, over the rectangle (0,0,300,300). -/
def layoutGrid : Grid := { rows := 3, columns := 3, x := 0, y := 0, width := 300, height := 300 }

/-- C9: laying out 3×3 over (0,0,300,300) initializes the column and row
boundaries to exactly {100,200}, and the derived cell (1,1) is the
rectangle (100,100,100,100); in general `initializeCustomPositions` places
boundary `i` at uniform spacing `origin + (i+1) * extent / count`. -/
theorem uniform_layout_scenario :
    (initCustomPositions layoutGrid).1 = [100, 200] ∧
    (initCustomPositions layoutGrid).2 = [100, 200] ∧
    cellRect layoutGrid (initCustomPositions layoutGrid).1
      (initCustomPositions layoutGrid).2 1 1 = ⟨100, 100, 100, 100⟩ ∧
    (∀ (g : Grid) (i : ℕ), i < g.columns - 1 →
      (initCustomPositions g).1.getD i 0 = g.x + ((i : ℚ) + 1) * (g.width / (g.columns : ℚ))) ∧
    (∀ (g : Grid) (i : ℕ), i < g.rows - 1 →
      (initCustomPositions g).2.getD i 0 = g.y + ((i : ℚ) + 1) * (g.height / (g.rows : ℚ))) := by
  have h1 : (initCustomPositions layoutGrid).1 = [100, 200] := by
    norm_num [initCustomPositions, layoutGrid, List.range_succ]
  have h2 : (initCustomPositions layoutGrid).2 = [100, 200] := by
    norm_num [initCustomPositions, layoutGrid, List.range_succ]
  refine ⟨h1, h2, ?_, ?_, ?_⟩
  · rw [h1, h2]
    norm_num [cellRect, colPositions, rowPositions, layoutGrid, List.getD, Rect.mk.injEq]
  · intro g i hi
    simp only [initCustomPositions]
    exact getD_map_range _ _ i hi
  · intro g i hi
    simp only [initCustomPositions]
    exact getD_map_range _ _ i hi

/-- Witness for `uniform_layout_scenario`: instantiates the general uniform
spacing clause at the 3×3 grid and boundary index 0. -/
theorem uniform_layout_witness :
    (initCustomPositions layoutGrid).1 = [100, 200] ∧
    (initCustomPositions layoutGrid).1.getD 0 0 =
      layoutGrid.x + ((0 : ℕ) + 1 : ℚ) * (layoutGrid.width / (layoutGrid.columns : ℚ)) :=
  ⟨uniform_layout_scenario.1,
    uniform_layout_scenario.2.2.2.1 layoutGrid 0 (by norm_num [layoutGrid])⟩

/-- Multiplication of every coordinate of a rectangle by a scale factor
(the inverse of the division performed by the export). -/
def scaleRect (c : ℚ) (r : Rect) : Rect := ⟨r.x * c, r.y * c, r.width * c, r.height * c⟩

/-- Dividing then multiplying each list element by a nonzero scale is the
identity. -/
lemma map_div_mul_cancel (c : ℚ) (hc : c ≠ 0) (l : List ℚ) :
    (l.map (fun p => p / c)).map (fun p => p * c) = l := by
  induction l with
  | nil => rfl
  | cons a t ih => simp [ih, div_mul_cancel₀ _ hc]

/-- Dividing then multiplying an optional box by a nonzero scale is the
identity. -/
lemma convertBox_scaleRect (c : ℚ) (hc : c ≠ 0) (b : Option Rect) :
    (convertBox c b).map (scaleRect c) = b := by
  cases b with
  | none => rfl
  | some r => simp [convertBox, scaleRect, div_mul_cancel₀ _ hc]

/-- Round-trip property of the export payloads of state `s` with grid `g`:
multiplying every numeric value of `getGridConfig` and `getCellTemplate`
by the scale factor reconstructs the stored values exactly. -/
def ExportRoundTrip (s : OverlayState) (g : Grid) : Prop :=
  (∃ cfg, getGridConfig s = some cfg ∧
    cfg.x * s.pdfScale = g.x ∧ cfg.y * s.pdfScale = g.y ∧
    cfg.width * s.pdfScale = g.width ∧ cfg.height * s.pdfScale = g.height ∧
    cfg.customColPositions.map (fun p => p * s.pdfScale) = s.customColPositions ∧
    cfg.customRowPositions.map (fun p => p * s.pdfScale) = s.customRowPositions ∧
    cfg.colPositions.map (fun p => p * s.pdfScale) = colPositions g s.customColPositions ∧
    cfg.rowPositions.map (fun p => p * s.pdfScale) = rowPositions g s.customRowPositions) ∧
  (∃ tpl hdr, getCellTemplate s = some (tpl, hdr) ∧
    tpl.voterIdBox.map (scaleRect s.pdfScale) = s.voterIdBox ∧
    tpl.photoBox.map (scaleRect s.pdfScale) = s.photoBox ∧
    tpl.nameBox.map (scaleRect s.pdfScale) = s.nameBox ∧
    tpl.relativeNameBox.map (scaleRect s.pdfScale) = s.relativeNameBox ∧
    tpl.houseNumberBox.map (scaleRect s.pdfScale) = s.houseNumberBox ∧
    tpl.genderBox.map (scaleRect s.pdfScale) = s.genderBox ∧
    tpl.ageBox.map (scaleRect s.pdfScale) = s.ageBox ∧
    tpl.assemblyNumberBox.map (scaleRect s.pdfScale) = s.assemblyNumberBox ∧
    tpl.serialNumberBox.map (scaleRect s.pdfScale) = s.serialNumberBox ∧
    hdr.boothCenterBox.map (scaleRect s.pdfScale) = s.boothCenterBox ∧
    hdr.boothAddressBox.map (scaleRect s.pdfScale) = s.boothAddressBox)

/-- C3: for every state with a grid and at least one region that makes the
template export defined, and every positive scale factor, multiplying every
numeric value of the export payloads by that factor reconstructs the stored
values exactly (coordinates are rationals in this model). -/
theorem export_round_trip
    (s : OverlayState) (g : Grid)
    (hg : s.grid = some g) (hs : 0 < s.pdfScale)
    (hone : s.voterIdBox.isSome ∨ s.boothCenterBox.isSome ∨ s.boothAddressBox.isSome) :
    ExportRoundTrip s g := by
  have hc : s.pdfScale ≠ 0 := ne_of_gt hs
  have hcfg : getGridConfig s = some
      { rows := g.rows, columns := g.columns,
        x := g.x / s.pdfScale, y := g.y / s.pdfScale,
        width := g.width / s.pdfScale, height := g.height / s.pdfScale,
        customColPositions := s.customColPositions.map (fun p => p / s.pdfScale),
        customRowPositions := s.customRowPositions.map (fun p => p / s.pdfScale),
        colPositions := (colPositions g s.customColPositions).map (fun p => p / s.pdfScale),
        rowPositions := (rowPositions g s.customRowPositions).map (fun p => p / s.pdfScale) } := by
    simp only [getGridConfig, hg]
  constructor
  · refine ⟨_, hcfg, ?_, ?_, ?_, ?_, ?_, ?_, ?_, ?_⟩ <;>
      first
        | exact div_mul_cancel₀ _ hc
        | exact map_div_mul_cancel s.pdfScale hc _
  · have hcond : (!s.voterIdBox.isSome
        && !(s.boothCenterBox.isSome || s.boothAddressBox.isSome)) = false := by
      rcases hone with h | h | h <;> simp [h]
    have htpl : getCellTemplate s = some
        ({ voterIdBox := convertBox s.pdfScale s.voterIdBox
           photoBox := convertBox s.pdfScale s.photoBox
           nameBox := convertBox s.pdfScale s.nameBox
           relativeNameBox := convertBox s.pdfScale s.relativeNameBox
           houseNumberBox := convertBox s.pdfScale s.houseNumberBox
           genderBox := convertBox s.pdfScale s.genderBox
           ageBox := convertBox s.pdfScale s.ageBox
           assemblyNumberBox := convertBox s.pdfScale s.assemblyNumberBox
           serialNumberBox := convertBox s.pdfScale s.serialNumberBox },
         { boothCenterBox := convertBox s.pdfScale s.boothCenterBox
           boothAddressBox := convertBox s.pdfScale s.boothAddressBox }) := by
      simp only [getCellTemplate, hcond, Bool.false_eq_true, if_false]
    refine ⟨_, _, htpl, ?_, ?_, ?_, ?_, ?_, ?_, ?_, ?_, ?_, ?_, ?_⟩ <;>
      exact convertBox_scaleRect s.pdfScale hc _

/-- Concrete state for the export round-trip witness: the 3×3 layout grid,
uniform boundaries and a stored voter-ID region, at the default scale 1.5. -/
def exportState : OverlayState :=
  { initialState with
      grid := some layoutGrid,
      customColPositions := [100, 200],
      customRowPositions := [100, 200],
      voterIdBox := some ⟨5, 5, 50, 20⟩ }

/-- Witness for `export_round_trip` at the concrete export state. -/
theorem export_round_trip_witness : ExportRoundTrip exportState layoutGrid :=
  export_round_trip exportState layoutGrid rfl
    (by norm_num [exportState, initialState]) (Or.inl rfl)

/-- Idle state holding the 3×3 layout grid with its uniform boundaries. -/
def gridState : OverlayState :=
  { initialState with
      grid := some layoutGrid,
      customColPositions := [100, 200],
      customRowPositions := [100, 200] }

/-- C4 (divergence): translating the whole grid — an arrow-key nudge or a
pointer drag of the interior — updates only the grid origin; the stored
row and column boundaries, which are absolute page coordinates, are left
unchanged, so they do not keep their position relative to the grid
rectangle (the claim would require the boundaries to become [101, 201]
after a one-unit rightward nudge). -/
theorem translation_does_not_shift_boundaries :
    (handleKeyDown gridState { key := .arrowRight, ctrlKey := false, shiftKey := false }).grid =
      some { rows := 3, columns := 3, x := 1, y := 0, width := 300, height := 300 } ∧
    (handleKeyDown gridState { key := .arrowRight, ctrlKey := false, shiftKey := false
      }).customColPositions = [100, 200] ∧
    (handleKeyDown gridState { key := .arrowRight, ctrlKey := false, shiftKey := false
      }).customRowPositions = [100, 200] ∧
    (handleKeyDown gridState { key := .arrowRight, ctrlKey := false, shiftKey := false
      }).customColPositions ≠ [101, 201] ∧
    (handleMouseMove { gridState with isDragging := true } 50 20).grid =
      some { rows := 3, columns := 3, x := 50, y := 20, width := 300, height := 300 } ∧
    (handleMouseMove { gridState with isDragging := true } 50 20).customColPositions =
      [100, 200] := by
  refine ⟨?_, ?_, ?_, ?_, ?_, ?_⟩ <;>
    norm_num [handleKeyDown, handleMouseMove, gridState, initialState, layoutGrid,
      Grid.mk.injEq]

/-- State in cell-template mode with the voter-ID region defined. -/
def templateState : OverlayState :=
  { gridState with
      templateMode := true,
      templateType := some TemplateType.voterID,
      voterIdBox := some ⟨5, 5, 50, 20⟩ }

/-- State right after the cell template has been applied (frozen grid). -/
def frozenState : OverlayState := handleApplyTemplate templateState

/-- C5 (divergence): after the template is applied the grid is frozen for
pointer input (a pointer-down is a no-op), but `handleKeyDown` never tests
`gridResizeDisabled`: an arrow-key nudge still moves the frozen grid and a
Shift+minus press still shrinks it. -/
theorem freeze_not_permanent_for_keyboard :
    frozenState.gridResizeDisabled = true ∧
    frozenState.templateMode = false ∧
    frozenState.headerTemplateMode = false ∧
    handleMouseDown frozenState 0 0 = frozenState ∧
    (handleKeyDown frozenState { key := .arrowUp, ctrlKey := false, shiftKey := false }).grid =
      some { rows := 3, columns := 3, x := 0, y := -1, width := 300, height := 300 } ∧
    (handleKeyDown frozenState { key := .minusKey, ctrlKey := false, shiftKey := true }).grid =
      some { rows := 3, columns := 3, x := 0, y := 0, width := 280, height := 280 } := by
  refine ⟨rfl, rfl, rfl, ?_, ?_, ?_⟩ <;>
    norm_num [handleKeyDown, handleMouseDown, frozenState, handleApplyTemplate,
      disableTemplateMode, isTemplateComplete, templateState, gridState, initialState,
      layoutGrid, Grid.mk.injEq]

/-- State in which row boundary 0 of the layout grid is being dragged. -/
def crossDragState : OverlayState :=
  { gridState with isDraggingLine := true, draggedLine := some ⟨LineKind.row, 0⟩ }

/-- C6: a boundary-drag event keeps the grid unchanged and keeps every
boundary strictly inside the outer rectangle (the update is simply skipped
when the pointer leaves the outer span), and it imposes no constraint
against neighboring boundaries: dragging row boundary 0 of the 3×3 layout
grid to y = 250 moves it past row boundary 1 at 200, giving [250, 200]. -/
theorem boundary_drag_outer_clamp_only
    (s : OverlayState) (g : Grid) (dl : DraggedLine) (x y : ℚ)
    (hd : s.isDrawing = false) (hl : s.isDraggingLine = true)
    (hdl : s.draggedLine = some dl) (hg : s.grid = some g)
    (hrow : ∀ p ∈ s.customRowPositions, g.y < p ∧ p < g.y + g.height)
    (hcol : ∀ p ∈ s.customColPositions, g.x < p ∧ p < g.x + g.width) :
    ((handleMouseMove s x y).grid = some g ∧
     (∀ p ∈ (handleMouseMove s x y).customRowPositions, g.y < p ∧ p < g.y + g.height) ∧
     (∀ p ∈ (handleMouseMove s x y).customColPositions, g.x < p ∧ p < g.x + g.width)) ∧
    (handleMouseMove crossDragState 0 250).customRowPositions = [250, 200] := by
  constructor
  · have hmv : handleMouseMove s x y =
        (match dl.kind with
         | LineKind.row =>
           if g.y < y ∧ y < g.y + g.height then
             { s with customRowPositions := s.customRowPositions.set dl.index y }
           else s
         | LineKind.col =>
           if g.x < x ∧ x < g.x + g.width then
             { s with customColPositions := s.customColPositions.set dl.index x }
           else s) := by
      simp [handleMouseMove, hd, hl, hdl, hg]
    rw [hmv]
    cases hk : dl.kind
    · by_cases hin : g.y < y ∧ y < g.y + g.height
      · simp only [hin, if_true]
        refine ⟨hg, ?_, hcol⟩
        intro p hp
        rcases List.mem_or_eq_of_mem_set hp with h | h
        · exact hrow p h
        · exact h ▸ hin
      · simp only [hin, if_false]
        exact ⟨hg, hrow, hcol⟩
    · by_cases hin : g.x < x ∧ x < g.x + g.width
      · simp only [hin, if_true]
        refine ⟨hg, hrow, ?_⟩
        intro p hp
        rcases List.mem_or_eq_of_mem_set hp with h | h
        · exact hcol p h
        · exact h ▸ hin
      · simp only [hin, if_false]
        exact ⟨hg, hrow, hcol⟩
  · norm_num [handleMouseMove, crossDragState, gridState, initialState, layoutGrid]

/-- Witness for `boundary_drag_outer_clamp_only`: an in-range drag of row
boundary 0 to y = 150 keeps every boundary strictly inside the 3×3 layout
grid's outer rectangle. -/
theorem boundary_drag_witness :
    (((handleMouseMove crossDragState 0 150).grid = some layoutGrid ∧
      (∀ p ∈ (handleMouseMove crossDragState 0 150).customRowPositions,
        layoutGrid.y < p ∧ p < layoutGrid.y + layoutGrid.height) ∧
      (∀ p ∈ (handleMouseMove crossDragState 0 150).customColPositions,
        layoutGrid.x < p ∧ p < layoutGrid.x + layoutGrid.width)) ∧
     (handleMouseMove crossDragState 0 250).customRowPositions = [250, 200]) :=
  boundary_drag_outer_clamp_only crossDragState layoutGrid ⟨LineKind.row, 0⟩ 0 150
    rfl rfl rfl rfl
    (by intro p hp
        simp only [crossDragState, gridState, initialState, List.mem_cons,
          List.not_mem_nil, or_false] at hp
        rcases hp with rfl | rfl <;> norm_num [layoutGrid])
    (by intro p hp
        simp only [crossDragState, gridState, initialState, List.mem_cons,
          List.not_mem_nil, or_false] at hp
        rcases hp with rfl | rfl <;> norm_num [layoutGrid])

/-- One Shift+minus key press (symmetric shrink by 20 units per axis). -/
def shrinkPress (s : OverlayState) : OverlayState :=
  handleKeyDown s { key := Key.minusKey, ctrlKey := false, shiftKey := true }

/-- State after laying out a 2×2 grid on a 200×200 canvas with the
auto-computed rectangle (10, 20, 180, 164). -/
def smallCanvasState : OverlayState := drawGrid initialState 200 200 2 2 none none none none

/-- Effect of one shrink press on any idle state with a grid. -/
lemma shrinkPress_grid (s : OverlayState) (g : Grid)
    (hg : s.grid = some g) (h1 : s.templateMode = false) (h2 : s.headerTemplateMode = false) :
    shrinkPress s =
      { s with grid := some { g with width := g.width - 20, height := g.height - 20 } } := by
  simp only [shrinkPress, handleKeyDown, h1, h2, hg, Bool.false_eq_true, if_false, if_true]
  norm_num

/-- Closed form of `n` successive shrink presses from the small-canvas state. -/
lemma shrinkPress_iterate (n : ℕ) :
    (shrinkPress^[n] smallCanvasState).grid =
      some { rows := 2, columns := 2, x := 10, y := 20,
             width := 180 - 20 * (n : ℚ), height := 164 - 20 * (n : ℚ) } ∧
    (shrinkPress^[n] smallCanvasState).templateMode = false ∧
    (shrinkPress^[n] smallCanvasState).headerTemplateMode = false := by
  induction n with
  | zero =>
    refine ⟨?_, rfl, rfl⟩
    norm_num [smallCanvasState, drawGrid, jsRound, Grid.mk.injEq]
  | succ k ih =>
    obtain ⟨hg, h1, h2⟩ := ih
    rw [Function.iterate_succ_apply', shrinkPress_grid _ _ hg h1 h2]
    refine ⟨?_, h1, h2⟩
    simp only [Option.some.injEq, Grid.mk.injEq, eq_self_iff_true, true_and, and_true]
    push_cast
    constructor <;> ring

/-- C7 (counterexample): the auto-laid-out grid on a 200×200 canvas has the
rectangle (10, 20, 180, 164); ten Shift+minus presses store width = -20 and
height = -36 — the symmetric shrink key applies no non-negativity floor, so
the stored grid rectangle goes negative. -/
theorem shrink_key_stores_negative_size :
    smallCanvasState.grid =
      some { rows := 2, columns := 2, x := 10, y := 20, width := 180, height := 164 } ∧
    (shrinkPress^[10] smallCanvasState).grid =
      some { rows := 2, columns := 2, x := 10, y := 20, width := -20, height := -36 } := by
  constructor
  · norm_num [smallCanvasState, drawGrid, jsRound, Grid.mk.injEq]
  · rw [(shrinkPress_iterate 10).1]
    norm_num [Grid.mk.injEq]

/-- C7 (amended): rectangles created from a drag are normalized at creation
(min corner plus absolute deltas, so width and height are never negative),
and a corner resize enforces the 100-unit floor on the stored grid; the
keyboard shrink key is the one mutation with no floor. -/
theorem drag_rect_normalized_and_resize_floor
    (s s2 : OverlayState) (p : ℚ × ℚ) (x y u v : ℚ)
    (hd : s.isDrawing = true) (hp : s.drawStart = some p)
    (h2d : s2.isDrawing = false) (h2l : s2.isDraggingLine = false)
    (h2r : s2.isResizing = true) (hg2 : s2.grid.isSome = true) :
    (∃ r, (handleMouseMove s x y).currentRect = some r ∧ 0 ≤ r.width ∧ 0 ≤ r.height) ∧
    (∃ g2, (handleMouseMove s2 u v).grid = some g2 ∧ 100 ≤ g2.width ∧ 100 ≤ g2.height) := by
  constructor
  · refine ⟨⟨min p.1 x, min p.2 y, |x - p.1|, |y - p.2|⟩, ?_, abs_nonneg _, abs_nonneg _⟩
    simp [handleMouseMove, hd, hp]
  · obtain ⟨g, hg⟩ := Option.isSome_iff_exists.mp hg2
    have hmv : handleMouseMove s2 u v =
        (let dX := u - s2.dragStartX
         let dY := v - s2.dragStartY
         let g1 : Grid :=
           match s2.resizeHandle with
           | some .topLeft =>
             { g with x := s2.gridStartX + dX, y := s2.gridStartY + dY,
                      width := s2.gridStartWidth - dX, height := s2.gridStartHeight - dY }
           | some .topRight =>
             { g with y := s2.gridStartY + dY,
                      width := s2.gridStartWidth + dX, height := s2.gridStartHeight - dY }
           | some .bottomLeft =>
             { g with x := s2.gridStartX + dX,
                      width := s2.gridStartWidth - dX, height := s2.gridStartHeight + dY }
           | some .bottomRight =>
             { g with width := s2.gridStartWidth + dX, height := s2.gridStartHeight + dY }
           | none => g
         let g2 : Grid :=
           { g1 with width := if g1.width < 100 then 100 else g1.width,
                     height := if g1.height < 100 then 100 else g1.height }
         let pos := initCustomPositions g2
         { s2 with grid := some g2, customColPositions := pos.1,
                   customRowPositions := pos.2 }) := by
      simp only [handleMouseMove, h2d, h2l, h2r, hg, Bool.false_and, Bool.true_and,
        Bool.false_eq_true, if_false, Option.isSome_some, if_true]
    rw [hmv]
    refine ⟨_, rfl, ?_, ?_⟩ <;> dsimp only
    · split
      · exact le_refl 100
      · exact le_of_not_lt (by assumption)
    · split
      · exact le_refl 100
      · exact le_of_not_lt (by assumption)

/-- State with a rubber-band draw in progress from point (10, 10). -/
def drawingState : OverlayState :=
  { gridState with
      templateMode := true,
      templateType := some TemplateType.voterID,
      isDrawing := true,
      drawStart := some (10, 10) }

/-- State with a bottom-right corner resize in progress. -/
def resizingState : OverlayState :=
  { gridState with
      isResizing := true,
      resizeHandle := some ResizeHandle.bottomRight,
      dragStartX := 300,
      dragStartY := 300,
      gridStartX := 0,
      gridStartY := 0,
      gridStartWidth := 300,
      gridStartHeight := 300 }

/-- Witness for `drag_rect_normalized_and_resize_floor` at a concrete draw
and a concrete corner resize. -/
theorem drag_rect_normalized_witness :
    (∃ r, (handleMouseMove drawingState 60 30).currentRect = some r ∧
      0 ≤ r.width ∧ 0 ≤ r.height) ∧
    (∃ g2, (handleMouseMove resizingState 200 200).grid = some g2 ∧
      100 ≤ g2.width ∧ 100 ≤ g2.height) :=
  drag_rect_normalized_and_resize_floor drawingState resizingState (10, 10) 60 30 200 200
    rfl rfl rfl rfl rfl rfl

/-- State with header template mode active over an existing grid. -/
def headerModeState : OverlayState :=
  { gridState with
      headerTemplateMode := true,
      templateType := some TemplateType.boothCenter }

/-- C8 (counterexample): with header template mode active and a grid
present, `enableTemplateMode` is not rejected — it succeeds and afterwards
both definition-mode flags are simultaneously true. -/
theorem mode_conflict_not_rejected :
    (enableTemplateMode headerModeState).1 = true ∧
    (enableTemplateMode headerModeState).2.templateMode = true ∧
    (enableTemplateMode headerModeState).2.headerTemplateMode = true :=
  ⟨rfl, rfl, rfl⟩

/-- C8 (amended): neither enable command checks the other mode.
`enableTemplateMode` succeeds whenever a grid exists and preserves the
header-mode flag, and `enableHeaderTemplateMode` always succeeds and
preserves the cell-mode flag, so the two modes can be active at once. -/
theorem mode_entry_no_exclusivity (s : OverlayState) (g : Grid) (hg : s.grid = some g) :
    (enableTemplateMode s).1 = true ∧
    (enableTemplateMode s).2.templateMode = true ∧
    (enableTemplateMode s).2.headerTemplateMode = s.headerTemplateMode ∧
    (enableHeaderTemplateMode s).1 = true ∧
    (enableHeaderTemplateMode s).2.headerTemplateMode = true ∧
    (enableHeaderTemplateMode s).2.templateMode = s.templateMode := by
  simp [enableTemplateMode, enableHeaderTemplateMode, hg]

/-- Witness for `mode_entry_no_exclusivity` at the header-mode state. -/
theorem mode_entry_no_exclusivity_witness :
    (enableTemplateMode headerModeState).1 = true ∧
    (enableTemplateMode headerModeState).2.templateMode = true ∧
    (enableTemplateMode headerModeState).2.headerTemplateMode =
      headerModeState.headerTemplateMode ∧
    (enableHeaderTemplateMode headerModeState).1 = true ∧
    (enableHeaderTemplateMode headerModeState).2.headerTemplateMode = true ∧
    (enableHeaderTemplateMode headerModeState).2.templateMode =
      headerModeState.templateMode :=
  mode_entry_no_exclusivity headerModeState layoutGrid rfl

/-- C10: entering a definition mode preselects a default field —
`enableTemplateMode` selects the voter-ID field and
`enableHeaderTemplateMode` selects the booth-center field — so a rectangle
drawn immediately after entering cell template mode, with no
field-selection command, is committed as the voter-ID region (translated
to reference-cell-relative coordinates), not rejected. -/
theorem mode_entry_preselects_field
    (s : OverlayState) (g : Grid) (x1 y1 x2 y2 : ℚ)
    (hg : s.grid = some g) (hh : s.headerTemplateMode = false) :
    (enableTemplateMode s).1 = true ∧
    (enableTemplateMode s).2.templateType = some TemplateType.voterID ∧
    (enableHeaderTemplateMode s).2.templateType = some TemplateType.boothCenter ∧
    (handleMouseUp (handleMouseMove (handleMouseDown (enableTemplateMode s).2 x1 y1)
        x2 y2)).voterIdBox =
      some { x := min x1 x2 - (getFirstCell g s.customColPositions s.customRowPositions).x
             y := min y1 y2 - (getFirstCell g s.customColPositions s.customRowPositions).y
             width := |x2 - x1|
             height := |y2 - y1| } := by
  have hs1 : enableTemplateMode s =
      (true, { s with templateMode := true, templateType := some TemplateType.voterID }) := by
    simp [enableTemplateMode, hg]
  rw [hs1]
  refine ⟨rfl, rfl, rfl, ?_⟩
  have hdown : handleMouseDown
      { s with templateMode := true, templateType := some TemplateType.voterID } x1 y1 =
      { s with templateMode := true, templateType := some TemplateType.voterID,
               isDrawing := true, drawStart := some (x1, y1) } := by
    simp [handleMouseDown, hh, hg]
  rw [hdown]
  have hmove : handleMouseMove
      { s with templateMode := true, templateType := some TemplateType.voterID,
               isDrawing := true, drawStart := some (x1, y1) } x2 y2 =
      { s with templateMode := true, templateType := some TemplateType.voterID,
               isDrawing := true, drawStart := some (x1, y1),
               currentRect := some ⟨min x1 x2, min y1 y2, |x2 - x1|, |y2 - y1|⟩ } := by
    simp [handleMouseMove]
  rw [hmove]
  simp [handleMouseUp, commitRect, hh, hg]

/-- Witness for `mode_entry_preselects_field`: drawing (10,10)-(60,30)
right after entering cell template mode on the 3×3 layout grid commits a
voter-ID region. -/
theorem mode_entry_preselects_witness :
    (enableTemplateMode gridState).1 = true ∧
    (enableTemplateMode gridState).2.templateType = some TemplateType.voterID ∧
    (enableHeaderTemplateMode gridState).2.templateType = some TemplateType.boothCenter ∧
    (handleMouseUp (handleMouseMove (handleMouseDown (enableTemplateMode gridState).2 10 10)
        60 30)).voterIdBox =
      some { x := min 10 60 -
               (getFirstCell layoutGrid gridState.customColPositions
                 gridState.customRowPositions).x
             y := min 10 30 -
               (getFirstCell layoutGrid gridState.customColPositions
                 gridState.customRowPositions).y
             width := |(60 : ℚ) - 10|
             height := |(30 : ℚ) - 10| } :=
  mode_entry_preselects_field gridState layoutGrid 10 10 60 30 rfl rfl
